import Mathlib

/-!
Verification of the camera-usage coordinator (`UsageManager` in
`care/utils/assetintegration/usage_manager.py`) and the authentication
gateway (`config/authentication.py`) against their natural-language
specification.

The Python code is shallowly embedded: the Redis/Django cache state that
`UsageManager` manipulates becomes an explicit `LockState` record, the
user database becomes a lookup function, time is an explicit `now`
parameter (a `cache.set` with `timeout` stores an absolute expiry and a
`cache.get` of an expired key yields `none`), and `send_webpush` calls
are collected as an output list of notifications.
-/

namespace Usage

/-- A user row, restricted to the attributes the usage manager reads
(`id` for cache bookkeeping, `username` for `send_webpush`). -/
structure User where
  id : Nat
  username : String
deriving DecidableEq

/-- The user table, as the lookup `User.objects.filter(id=<i>).first()`:
`db i` is the user whose primary key is `i`, if any. -/
abbrev Db := Nat → Option User

/-- Well-formedness of the user table: a row found under key `i` has id `i`. -/
def wfDb (db : Db) : Prop := ∀ i u, db i = some u → u.id = i

/-- The value stored at `onvif_current_user:<asset_id>` together with the
absolute time at which its cache TTL elapses. -/
structure HolderRec where
  uid : Nat
  expiry : Nat
deriving DecidableEq

/-- The shared cache state for one asset: the `onvif_current_user` key
(`none` when absent) and the `onvif_waiting_list` Redis list of user ids. -/
structure LockState where
  holder : Option HolderRec
  waiting : List Nat
deriving DecidableEq

/-- `cache.get(self.current_user_cache_key)` at time `now`: the stored
holder id, or `none` when the key is absent or its TTL has elapsed. -/
def cacheGetCurrentUser (st : LockState) (now : Nat) : Option Nat :=
  match st.holder with
  | none => none
  | some h => if now < h.expiry then some h.uid else none

/-- The `timeout=60 * 5` argument of `cache.set` in `lock_camera`, in seconds. -/
def lockTimeout : Nat := 60 * 5

/-- One `send_webpush` call: target username and the `action` field of the
JSON message. -/
structure Notif where
  username : String
  action : String
deriving DecidableEq

/-- `get_waiting_list`: reads the Redis list and resolves each id against
the user table.

Modelled from the spec: the `User` model and the ORM behind
`User.objects.filter(id__in=asset_queue)` are not part of the sources
under verification; the spec states the query returns the resolved
principals of the queued ids in FIFO (queue) order with unresolvable ids
silently dropped, which is `List.filterMap` over the queue. -/
def getWaitingList (st : LockState) (db : Db) : List User :=
  st.waiting.filterMap db

/-- `add_to_waiting_list`: `rpush` the caller's id unless already present. -/
def addToWaitingList (st : LockState) (uid : Nat) : LockState :=
  if uid ∈ st.waiting then st else { st with waiting := st.waiting ++ [uid] }

/-- `remove_from_waiting_list`: `lrem` with count 0 removes every
occurrence of the caller's id. -/
def removeFromWaitingList (st : LockState) (uid : Nat) : LockState :=
  { st with waiting := st.waiting.filter (fun i => i != uid) }

/-- `clear_waiting_list`: deletes the Redis list. (Defined in the source
but never called by any operation.) -/
def clearWaitingList (st : LockState) : LockState :=
  { st with waiting := [] }

/-- `has_access`: true iff the holder key is absent (or expired) or holds
the caller's own id. -/
def hasAccess (st : LockState) (uid : Nat) (now : Nat) : Bool :=
  match cacheGetCurrentUser st now with
  | none => true
  | some c => c == uid

/-- `notify_waiting_list_on_asset_availabe`: one `CAMERA_AVAILABILITY`
webpush per user returned by `get_waiting_list`. -/
def notifyWaitingListOnAssetAvailabe (st : LockState) (db : Db) : List Notif :=
  (getWaitingList st db).map (fun u => ⟨u.username, "CAMERA_AVAILABILITY"⟩)

/-- `lock_camera`: if the holder key is absent/expired or already the
caller, (re)set it with a fresh `60 * 5` second timeout, drop the caller
from the waiting list and return `True`; otherwise enqueue the caller and
return `False`. -/
def lockCamera (st : LockState) (uid : Nat) (now : Nat) : Bool × LockState :=
  let cur := cacheGetCurrentUser st now
  if cur == none || cur == some uid then
    (true, removeFromWaitingList { st with holder := some ⟨uid, now + lockTimeout⟩ } uid)
  else
    (false, addToWaitingList st uid)

/-- `unlock_camera`: when the caller is the current holder, delete the
holder key and fan out availability webpushes; in every case remove the
caller's own id from the waiting list. Returns the new state and the
webpushes sent. -/
def unlockCamera (st : LockState) (uid : Nat) (now : Nat) (db : Db) :
    LockState × List Notif :=
  if cacheGetCurrentUser st now == some uid then
    let st1 : LockState := { st with holder := none }
    (removeFromWaitingList st1 uid, notifyWaitingListOnAssetAvailabe st1 db)
  else
    (removeFromWaitingList st uid, [])

/-- `notify_current_user_on_request_access`: returns the webpushes sent,
or `none` for the uncaught `AttributeError` the source raises when the
stored holder id resolves to no user (`user = ...first()` is used as
`user.username` without a check, unlike the guarded `requester`). -/
def notifyCurrentUserOnRequestAccess (st : LockState) (uid : Nat) (now : Nat)
    (db : Db) : Option (List Notif) :=
  match cacheGetCurrentUser st now with
  | none => some []
  | some cur =>
    match db uid with
    | none => some []
    | some _requester =>
      match db cur with
      | some holder => some [⟨holder.username, "CAMERA_ACCESS_REQUEST"⟩]
      | none => none

/-- `request_access`: `lock_camera`, and on denial additionally notify the
current holder. `none` propagates the `AttributeError` of the notifier. -/
def requestAccess (st : LockState) (uid : Nat) (now : Nat) (db : Db) :
    Option (Bool × LockState × List Notif) :=
  let r := lockCamera st uid now
  if r.1 then some (true, r.2, [])
  else
    match notifyCurrentUserOnRequestAccess r.2 uid now db with
    | some ns => some (false, r.2, ns)
    | none => none

/-- `current_user`: reads the holder key; when the stored id no longer
resolves to a user, deletes the key and returns `none`; otherwise returns
the (serialized) user without touching the state. -/
def currentUser (st : LockState) (now : Nat) (db : Db) :
    Option User × LockState :=
  match cacheGetCurrentUser st now with
  | none => (none, st)
  | some cur =>
    match db cur with
    | none => (none, { st with holder := none })
    | some u => (some u, st)

end Usage

namespace Auth

/-- The decoded JWT claim set, restricted to the claim the middleware
resolver reads (`asset_id`; `none` when the key is absent). -/
structure Claims where
  assetId : Option String
deriving DecidableEq

/-- The outcome of `open_id_authenticate` (certificate fetch, JWK parse,
RS256 verification): the decoded claims, or the raised exception rendered
as its message string. -/
abbrev OpenIdResult := Except String Claims

/-- The exception class a validator raises with. -/
inductive ErrKind where
  | invalidToken
  | authenticationFailed
deriving DecidableEq

/-- A raised authentication failure: exception class plus the `detail`
string of its payload. -/
structure AuthError where
  kind : ErrKind
  detail : String
deriving DecidableEq

/-- `MiddlewareAuthentication.get_validated_token`: any exception from
`open_id_authenticate` is swallowed (printed) and replaced by a fixed
`InvalidToken` payload. -/
def getValidatedTokenMW (r : OpenIdResult) : Except AuthError Claims :=
  match r with
  | Except.ok c => Except.ok c
  | Except.error _e =>
      Except.error ⟨ErrKind.invalidToken, "Given token not valid for any token type"⟩

/-- `ABDMAuthentication.get_validated_token`: any exception from
`open_id_authenticate` is caught and re-raised as `InvalidToken`, with the
caught exception's text interpolated into the detail string. -/
def getValidatedTokenABDM (r : OpenIdResult) : Except AuthError Claims :=
  match r with
  | Except.ok c => Except.ok c
  | Except.error e =>
      Except.error ⟨ErrKind.invalidToken, "Invalid Authorization token: " ++ e⟩

/-- A facility row: primary key, `external_id`, and `middleware_address`
(the empty string models a falsy/unset address). -/
structure Facility where
  id : Nat
  externalId : String
  middlewareAddress : String
deriving DecidableEq

/-- An asset row: `external_id` and the primary key of
`current_location.facility`, which is what the facility comparison in
`get_user` observes. -/
structure Asset where
  externalId : String
  facilityId : Nat
deriving DecidableEq

/-- A user row, restricted to the fields the provisioning paths set or
query: username, (hashed-at-rest) password, role, verified flag, and the
linked asset's external id. -/
structure User where
  username : String
  password : String
  userType : String
  verified : Bool
  asset : Option String
deriving DecidableEq

/-- The synthetic user `MiddlewareAuthentication.get_user` builds for an
asset with no associated user; `pw` stands for the
`make_random_password()` draw. -/
def mkAssetUser (a : Asset) (pw : String) : User :=
  { username := "asset" ++ a.externalId
    password := pw ++ "123"
    userType := "Staff"
    verified := true
    asset := some a.externalId }

/-- `MiddlewareAuthentication.get_user`, provisioning part: look up the
user linked to the asset; if absent, create and save one. Returns the
user and the updated user table. -/
def getUserMW (users : List User) (a : Asset) (pw : String) : User × List User :=
  match users.find? (fun u => u.asset == some a.externalId) with
  | some u => (u, users)
  | none =>
      let u := mkAssetUser a pw
      (u, users ++ [u])

/-- The synthetic user `ABDMAuthentication.get_user` builds for the
configured well-known username. -/
def mkAbdmUser (abdmUsername : String) (pw : String) : User :=
  { username := abdmUsername
    password := pw ++ "123"
    userType := "Volunteer"
    verified := true
    asset := none }

/-- `ABDMAuthentication.get_user`: look up the configured username; if
absent, create and save the synthetic user. -/
def getUserABDM (users : List User) (abdmUsername : String) (pw : String) :
    User × List User :=
  match users.find? (fun u => u.username == abdmUsername) with
  | some u => (u, users)
  | none =>
      let u := mkAbdmUser abdmUsername pw
      (u, users ++ [u])

/-- The external collaborators `MiddlewareAuthentication.authenticate`
consults: the facility and asset tables, the user table, the outcome of
the per-request OpenID fetch/verify, and the random-password draw. -/
structure Env where
  facilities : List Facility
  assets : List Asset
  users : List User
  openId : OpenIdResult
  pw : String

/-- `MiddlewareAuthentication.authenticate` from the point where the
facility header has been read (header-shape failures return `None`
upstream and are out of scope here): resolve the declared facility,
require a middleware address, validate the token, then `get_user`:
require an `asset_id` claim, resolve the asset, compare its owning
facility with the declared one, and finally look up or provision the
asset's user. -/
def authenticateMW (env : Env) (facilityHeader : String) :
    Except AuthError (User × Claims × List User) :=
  match env.facilities.find? (fun f => f.externalId == facilityHeader) with
  | none => Except.error ⟨ErrKind.invalidToken, "Invalid Facility"⟩
  | some facility =>
    if facility.middlewareAddress == "" then
      Except.error ⟨ErrKind.invalidToken, "Facility not connected to a middleware"⟩
    else
      match getValidatedTokenMW env.openId with
      | Except.error e => Except.error e
      | Except.ok claims =>
        match claims.assetId with
        | none => Except.error ⟨ErrKind.invalidToken, "Given token does not contain asset_id"⟩
        | some aid =>
          match env.assets.find? (fun a => a.externalId == aid) with
          | none => Except.error ⟨ErrKind.invalidToken, "Invalid Asset ID"⟩
          | some asset =>
            if asset.facilityId != facility.id then
              Except.error ⟨ErrKind.invalidToken, "Facility not connected to Asset"⟩
            else
              let r := getUserMW env.users asset env.pw
              Except.ok (r.1, claims, r.2)

/-- The spec's §7 error taxonomy. -/
inductive SpecErrClass where
  | malformed
  | invalid
  | untrustedIssuer
  | scopeMismatch
  | notFound
deriving DecidableEq

/-- Modelled from the spec: the spec's error taxonomy is an abstraction of
the source, which raises `InvalidToken` with distinct detail strings; §4.1
names the missing-middleware failure `UntrustedIssuer` and §4.2 names the
facility/asset-binding failure `ScopeMismatch`, and every other
verification failure is `Invalid`. This map realizes that correspondence
on raised errors. -/
def specClassOf (e : AuthError) : SpecErrClass :=
  if e.detail == "Facility not connected to a middleware" then SpecErrClass.untrustedIssuer
  else if e.detail == "Facility not connected to Asset" then SpecErrClass.scopeMismatch
  else SpecErrClass.invalid

/-- The spec-taxonomy class of a failed authentication outcome. -/
def errClass (r : Except AuthError (User × Claims × List User)) :
    Option SpecErrClass :=
  match r with
  | Except.error e => some (specClassOf e)
  | Except.ok _ => none

end Auth

namespace Usage

/-- A user table backed by a finite list of rows, looked up by id. -/
def dbOfList (l : List User) : Db :=
  fun i => l.find? (fun u => u.id == i)

/-- A three-row user table used as a concrete fixture. -/
def dbABC : Db :=
  dbOfList [⟨1, "alice"⟩, ⟨2, "bob"⟩, ⟨3, "carol"⟩]

end Usage

theorem Usage.wfDb_dbOfList (l : List Usage.User) : Usage.wfDb (Usage.dbOfList l) := by
  intro i u h
  have := List.find?_some h
  simpa using this

theorem Usage.filterMap_map_id (db : Usage.Db) (hwf : Usage.wfDb db) (l : List Nat) :
    (l.filterMap db).map (fun u => u.id) = l.filter (fun i => (db i).isSome) := by
  induction l with
  | nil => rfl
  | cons a l ih =>
    cases h : db a with
    | none => simp [List.filterMap_cons, h, ih]
    | some u => simp [List.filterMap_cons, h, ih, hwf a u h]

theorem Usage.nodup_filterMap (db : Usage.Db) (hwf : Usage.wfDb db) (l : List Nat)
    (h : l.Nodup) : (l.filterMap db).Nodup := by
  refine List.Nodup.filterMap ?_ h
  intro a a' b hb hb'
  have h1 := hwf a b (Option.mem_def.mp hb)
  have h2 := hwf a' b (Option.mem_def.mp hb')
  omega

theorem Usage.addToWaitingList_holder (st : Usage.LockState) (q : Nat) :
    (Usage.addToWaitingList st q).holder = st.holder := by
  unfold Usage.addToWaitingList
  split <;> rfl

theorem Usage.count_addToWaitingList (st : Usage.LockState) (q : Nat)
    (h : st.waiting.count q ≤ 1) :
    (Usage.addToWaitingList st q).waiting.count q = 1 := by
  by_cases hq : q ∈ st.waiting
  · have := List.one_le_count_iff.mpr hq
    simp only [Usage.addToWaitingList, if_pos hq]
    omega
  · simp [Usage.addToWaitingList, hq, List.count_eq_zero.mpr hq]

theorem Auth.find?_append_singleton {α : Type} (p : α → Bool) (l : List α)
    (h : l.find? p = none) (a : α) (ha : p a = true) :
    (l ++ [a]).find? p = some a := by
  rw [List.find?_append, h]
  simp [ha]

/-- Claim C1 (amended): when `unlock_camera` is called by the current
holder, the holder key is deleted (the lock returns to Unlocked), exactly
one availability notification is sent to each queued principal that still
resolves, in FIFO (queue) order, and the caller's own entry is removed
from the waiting list — the rest of the waiting list is left in place
(the list is not cleared). -/
theorem c1_release_by_holder (st : Usage.LockState) (uid now : Nat) (db : Usage.Db)
    (hwf : Usage.wfDb db) (hnd : st.waiting.Nodup)
    (hhold : Usage.cacheGetCurrentUser st now = some uid) :
    (Usage.unlockCamera st uid now db).1.holder = none ∧
    (Usage.unlockCamera st uid now db).2 =
      (st.waiting.filterMap db).map (fun u => ⟨u.username, "CAMERA_AVAILABILITY"⟩) ∧
    (st.waiting.filterMap db).Nodup ∧
    (Usage.unlockCamera st uid now db).1.waiting =
      st.waiting.filter (fun i => i != uid) := by
  unfold Usage.unlockCamera
  rw [hhold]
  simp [Usage.removeFromWaitingList, Usage.notifyWaitingListOnAssetAvailabe,
    Usage.getWaitingList, Usage.nodup_filterMap db hwf _ hnd]

/-- Claim C1, counterexample to the claim as stated: holder 1 releases
with user 2 queued; afterwards the waiting list still contains 2, i.e. it
is not empty as the claim requires. -/
theorem c1_counterexample :
    (Usage.unlockCamera ⟨some ⟨1, 100⟩, [2]⟩ 1 0 Usage.dbABC).1.waiting ≠ [] := by
  decide

/-- Claim C1, witness for `c1_release_by_holder` at a concrete state. -/
theorem c1_release_by_holder_witness :
    (Usage.unlockCamera ⟨some ⟨1, 100⟩, [2, 3]⟩ 1 0 Usage.dbABC).1.holder = none ∧
    (Usage.unlockCamera ⟨some ⟨1, 100⟩, [2, 3]⟩ 1 0 Usage.dbABC).2 =
      (([2, 3] : List Nat).filterMap Usage.dbABC).map
        (fun u => ⟨u.username, "CAMERA_AVAILABILITY"⟩) ∧
    (([2, 3] : List Nat).filterMap Usage.dbABC).Nodup ∧
    (Usage.unlockCamera ⟨some ⟨1, 100⟩, [2, 3]⟩ 1 0 Usage.dbABC).1.waiting =
      ([2, 3] : List Nat).filter (fun i => i != 1) :=
  c1_release_by_holder ⟨some ⟨1, 100⟩, [2, 3]⟩ 1 0 Usage.dbABC
    (Usage.wfDb_dbOfList _) (by decide) (by decide)

/-- Claim C2: `lock_camera` on an unlocked resource, or by the current
holder itself, succeeds, installs the caller as holder with a fresh
5-minute (`60 * 5` seconds) lease, and removes the caller from the waiting
list; `lock_camera` by another principal while `p` holds is denied, leaves
the holder untouched, and enqueues the caller at most once (exactly one
entry afterwards). -/
theorem c2_lock_camera (st1 st2 : Usage.LockState) (now p q r : Nat)
    (h1 : Usage.cacheGetCurrentUser st1 now = none)
    (h2 : Usage.cacheGetCurrentUser st2 now = some p)
    (hpq : p ≠ q) (hcnt : st2.waiting.count q ≤ 1) :
    (Usage.lockCamera st1 r now).1 = true ∧
    (Usage.lockCamera st1 r now).2.holder = some ⟨r, now + Usage.lockTimeout⟩ ∧
    r ∉ (Usage.lockCamera st1 r now).2.waiting ∧
    (Usage.lockCamera st2 p now).1 = true ∧
    (Usage.lockCamera st2 p now).2.holder = some ⟨p, now + Usage.lockTimeout⟩ ∧
    p ∉ (Usage.lockCamera st2 p now).2.waiting ∧
    (Usage.lockCamera st2 q now).1 = false ∧
    (Usage.lockCamera st2 q now).2.holder = st2.holder ∧
    (Usage.lockCamera st2 q now).2.waiting.count q = 1 ∧
    Usage.lockTimeout = 5 * 60 := by
  refine ⟨?_, ?_, ?_, ?_, ?_, ?_, ?_, ?_, ?_, rfl⟩ <;>
    simp [Usage.lockCamera, h1, h2, hpq, Usage.removeFromWaitingList,
      Usage.addToWaitingList_holder, Usage.count_addToWaitingList st2 q hcnt]

/-- Claim C2, witness for `c2_lock_camera` at concrete states. -/
theorem c2_lock_camera_witness :
    (Usage.lockCamera ⟨none, [7]⟩ 7 10).1 = true ∧
    (Usage.lockCamera ⟨none, [7]⟩ 7 10).2.holder = some ⟨7, 10 + Usage.lockTimeout⟩ ∧
    7 ∉ (Usage.lockCamera ⟨none, [7]⟩ 7 10).2.waiting ∧
    (Usage.lockCamera ⟨some ⟨1, 100⟩, [2]⟩ 1 10).1 = true ∧
    (Usage.lockCamera ⟨some ⟨1, 100⟩, [2]⟩ 1 10).2.holder =
      some ⟨1, 10 + Usage.lockTimeout⟩ ∧
    1 ∉ (Usage.lockCamera ⟨some ⟨1, 100⟩, [2]⟩ 1 10).2.waiting ∧
    (Usage.lockCamera ⟨some ⟨1, 100⟩, [2]⟩ 2 10).1 = false ∧
    (Usage.lockCamera ⟨some ⟨1, 100⟩, [2]⟩ 2 10).2.holder =
      (⟨some ⟨1, 100⟩, [2]⟩ : Usage.LockState).holder ∧
    ((Usage.lockCamera ⟨some ⟨1, 100⟩, [2]⟩ 2 10).2.waiting.count 2 = 1) ∧
    Usage.lockTimeout = 5 * 60 :=
  c2_lock_camera ⟨none, [7]⟩ ⟨some ⟨1, 100⟩, [2]⟩ 10 1 2 7
    (by decide) (by decide) (by decide) (by decide)

/-- Claim C3: `unlock_camera` called by anyone who is not the current
holder (including on an unlocked or expired lock) leaves the holder state
unchanged, sends no notification, and only removes the caller's own
entries from the waiting list. -/
theorem c3_release_by_non_holder (st : Usage.LockState) (uid now : Nat) (db : Usage.Db)
    (h : Usage.cacheGetCurrentUser st now ≠ some uid) :
    Usage.unlockCamera st uid now db =
      ({ st with waiting := st.waiting.filter (fun i => i != uid) },
        ([] : List Usage.Notif)) := by
  unfold Usage.unlockCamera
  simp [h, Usage.removeFromWaitingList]

/-- Claim C3, witness for `c3_release_by_non_holder`: user 2 releases a
lock held by user 1; only 2's queue entry disappears. -/
theorem c3_release_by_non_holder_witness :
    Usage.unlockCamera ⟨some ⟨1, 100⟩, [2, 3]⟩ 2 0 Usage.dbABC =
      ({ (⟨some ⟨1, 100⟩, [2, 3]⟩ : Usage.LockState) with
          waiting := ([2, 3] : List Nat).filter (fun i => i != 2) },
        ([] : List Usage.Notif)) :=
  c3_release_by_non_holder ⟨some ⟨1, 100⟩, [2, 3]⟩ 2 0 Usage.dbABC (by decide)

/-- Claim C4: a held record whose lease expiry is in the past is treated
as unlocked by the next inspection, whoever calls: `has_access` is true
for any principal and `lock_camera` succeeds for any principal, granting a
fresh lease; the default lease is 5 minutes (`60 * 5` seconds). -/
theorem c4_lease_expiry (st : Usage.LockState) (uid now : Nat) (h : Usage.HolderRec)
    (hh : st.holder = some h) (hexp : h.expiry ≤ now) :
    Usage.hasAccess st uid now = true ∧
    (Usage.lockCamera st uid now).1 = true ∧
    (Usage.lockCamera st uid now).2.holder = some ⟨uid, now + Usage.lockTimeout⟩ ∧
    Usage.lockTimeout = 5 * 60 := by
  have hcg : Usage.cacheGetCurrentUser st now = none := by
    unfold Usage.cacheGetCurrentUser
    rw [hh]
    simp [Nat.not_lt.mpr hexp]
  simp [Usage.hasAccess, Usage.lockCamera, hcg, Usage.removeFromWaitingList,
    Usage.lockTimeout]

/-- Claim C4, witness for `c4_lease_expiry`: user 1's lease expired at
time 50, user 2 inspects at time 60. -/
theorem c4_lease_expiry_witness :
    Usage.hasAccess ⟨some ⟨1, 50⟩, []⟩ 2 60 = true ∧
    (Usage.lockCamera ⟨some ⟨1, 50⟩, []⟩ 2 60).1 = true ∧
    (Usage.lockCamera ⟨some ⟨1, 50⟩, []⟩ 2 60).2.holder =
      some ⟨2, 60 + Usage.lockTimeout⟩ ∧
    Usage.lockTimeout = 5 * 60 :=
  c4_lease_expiry ⟨some ⟨1, 50⟩, []⟩ 2 60 ⟨1, 50⟩ (by decide) (by decide)

/-- Claim C5 (code bug): `request_access` by user 1 while the holder key
stores id 2 and no user row with id 2 exists raises an uncaught
`AttributeError` (modelled as `none`) from
`notify_current_user_on_request_access`, where `user.username` is read off
an unchecked `.first()`; the claim (and spec) require the notification to
be silently skipped and the denied result returned. -/
theorem c5_holder_unresolvable_raises :
    Usage.requestAccess ⟨some ⟨2, 100⟩, []⟩ 1 0
      (Usage.dbOfList [⟨1, "alice"⟩]) = none := by
  decide

/-- Claim C6: `get_waiting_list` returns the resolved user for every
queued id in FIFO (queue) order — the returned ids are exactly the queued
ids that resolve, in queue order, and each returned user is the row stored
under its id — while ids that no longer resolve are silently dropped; the
operation reads but never writes the underlying list (it is a pure
function of the state in this embedding). -/
theorem c6_get_waiting_list (st : Usage.LockState) (db : Usage.Db)
    (hwf : Usage.wfDb db) :
    (Usage.getWaitingList st db).map (fun u => u.id) =
      st.waiting.filter (fun i => (db i).isSome) ∧
    ∀ u ∈ Usage.getWaitingList st db, db u.id = some u := by
  constructor
  · exact Usage.filterMap_map_id db hwf st.waiting
  · intro u hu
    rcases List.mem_filterMap.mp hu with ⟨i, _hi, hdb⟩
    rw [hwf i u hdb]
    exact hdb

/-- Claim C6, witness for `c6_get_waiting_list`: queue `[3, 9, 1]` where
id 9 does not resolve. -/
theorem c6_get_waiting_list_witness :
    (Usage.getWaitingList ⟨none, [3, 9, 1]⟩ Usage.dbABC).map (fun u => u.id) =
      ([3, 9, 1] : List Nat).filter (fun i => (Usage.dbABC i).isSome) ∧
    ∀ u ∈ Usage.getWaitingList ⟨none, [3, 9, 1]⟩ Usage.dbABC,
      Usage.dbABC u.id = some u :=
  c6_get_waiting_list ⟨none, [3, 9, 1]⟩ Usage.dbABC (Usage.wfDb_dbOfList _)

/-- Claim C7 (amended): every exception arising during OpenID
verification or signing-key fetch is caught and replaced by an
`InvalidToken` failure in both validators — never re-raised — and the
middleware validator's detail is a fixed message independent of the
exception; the external health-exchange validator, however, embeds the
raw exception's message in its error detail. -/
theorem c7_exception_wrapping (e : String) :
    Auth.getValidatedTokenMW (Except.error e) =
      Except.error ⟨Auth.ErrKind.invalidToken,
        "Given token not valid for any token type"⟩ ∧
    Auth.getValidatedTokenABDM (Except.error e) =
      Except.error ⟨Auth.ErrKind.invalidToken,
        "Invalid Authorization token: " ++ e⟩ :=
  ⟨rfl, rfl⟩

/-- Claim C7, counterexample to the claim as stated: there is an
underlying exception text that reappears verbatim (as a suffix) inside
the error detail of the external health-exchange validator, so the raw
cause does surface embedded in the error detail. -/
theorem c7_counterexample :
    ∃ e p, Auth.getValidatedTokenABDM (Except.error e) =
      Except.error ⟨Auth.ErrKind.invalidToken, p ++ e⟩ :=
  ⟨"ECONNREFUSED", "Invalid Authorization token: ", rfl⟩

/-- Claim C8: middleware facility-trust failures fall into the spec's
taxonomy — unknown declared facility is `Invalid`, a facility with no
middleware endpoint is `UntrustedIssuer`, and a bound asset owned by a
facility other than the declared one is `ScopeMismatch` (the source raises
`InvalidToken` with a distinct detail for each; `Auth.specClassOf` is the
spec's classification of those details). -/
theorem c8_error_taxonomy
    (envA : Auth.Env) (fidA : String)
    (envB : Auth.Env) (fidB : String) (facB : Auth.Facility)
    (envC : Auth.Env) (fidC : String) (facC : Auth.Facility)
    (claims : Auth.Claims) (aid : String) (asset : Auth.Asset)
    (hA : envA.facilities.find? (fun f => f.externalId == fidA) = none)
    (hB1 : envB.facilities.find? (fun f => f.externalId == fidB) = some facB)
    (hB2 : facB.middlewareAddress = "")
    (hC1 : envC.facilities.find? (fun f => f.externalId == fidC) = some facC)
    (hC2 : facC.middlewareAddress ≠ "")
    (hC3 : envC.openId = Except.ok claims)
    (hC4 : claims.assetId = some aid)
    (hC5 : envC.assets.find? (fun a => a.externalId == aid) = some asset)
    (hC6 : asset.facilityId ≠ facC.id) :
    Auth.errClass (Auth.authenticateMW envA fidA) = some Auth.SpecErrClass.invalid ∧
    Auth.errClass (Auth.authenticateMW envB fidB) =
      some Auth.SpecErrClass.untrustedIssuer ∧
    Auth.errClass (Auth.authenticateMW envC fidC) =
      some Auth.SpecErrClass.scopeMismatch := by
  refine ⟨?_, ?_, ?_⟩ <;>
    simp [Auth.authenticateMW, Auth.errClass, Auth.specClassOf,
      Auth.getValidatedTokenMW, hA, hB1, hB2, hC1, hC2, hC3, hC4, hC5, hC6]

/-- Claim C8, witness for `c8_error_taxonomy` on concrete environments:
facility `F` exists with middleware address `mw`, asset `A` is owned by
facility 2 while the token declares facility `F` (id 1). -/
theorem c8_error_taxonomy_witness :
    Auth.errClass (Auth.authenticateMW ⟨[], [], [], Except.error "x", "pw"⟩ "F") =
      some Auth.SpecErrClass.invalid ∧
    Auth.errClass (Auth.authenticateMW
        ⟨[⟨1, "F", ""⟩], [], [], Except.error "x", "pw"⟩ "F") =
      some Auth.SpecErrClass.untrustedIssuer ∧
    Auth.errClass (Auth.authenticateMW
        ⟨[⟨1, "F", "mw"⟩], [⟨"A", 2⟩], [], Except.ok ⟨some "A"⟩, "pw"⟩ "F") =
      some Auth.SpecErrClass.scopeMismatch :=
  c8_error_taxonomy
    ⟨[], [], [], Except.error "x", "pw"⟩ "F"
    ⟨[⟨1, "F", ""⟩], [], [], Except.error "x", "pw"⟩ "F" ⟨1, "F", ""⟩
    ⟨[⟨1, "F", "mw"⟩], [⟨"A", 2⟩], [], Except.ok ⟨some "A"⟩, "pw"⟩ "F" ⟨1, "F", "mw"⟩
    ⟨some "A"⟩ "A" ⟨"A", 2⟩
    (by decide) (by decide) (by decide) (by decide) (by decide) (by rfl)
    (by decide) (by decide) (by decide)

/-- Claim C9: provisioning is idempotent — for an asset with no associated
user, the first `get_user` call provisions one and a second call returns
that same user with no further write (independently of the fresh random
password draw); likewise for the single well-known external
health-exchange username. -/
theorem c9_idempotent_provisioning
    (users : List Auth.User) (a : Auth.Asset) (pw pw2 : String)
    (husers : users.find? (fun u => u.asset == some a.externalId) = none)
    (users2 : List Auth.User) (abdmU pw3 pw4 : String)
    (husers2 : users2.find? (fun u => u.username == abdmU) = none) :
    Auth.getUserMW (Auth.getUserMW users a pw).2 a pw2 =
      Auth.getUserMW users a pw ∧
    Auth.getUserABDM (Auth.getUserABDM users2 abdmU pw3).2 abdmU pw4 =
      Auth.getUserABDM users2 abdmU pw3 := by
  constructor
  · have h1 : Auth.getUserMW users a pw =
        (Auth.mkAssetUser a pw, users ++ [Auth.mkAssetUser a pw]) := by
      unfold Auth.getUserMW
      rw [husers]
    rw [h1]
    unfold Auth.getUserMW
    rw [Auth.find?_append_singleton _ _ husers _ (by simp [Auth.mkAssetUser])]
  · have h2 : Auth.getUserABDM users2 abdmU pw3 =
        (Auth.mkAbdmUser abdmU pw3, users2 ++ [Auth.mkAbdmUser abdmU pw3]) := by
      unfold Auth.getUserABDM
      rw [husers2]
    rw [h2]
    unfold Auth.getUserABDM
    rw [Auth.find?_append_singleton _ _ husers2 _ (by simp [Auth.mkAbdmUser])]

/-- Claim C9, witness for `c9_idempotent_provisioning` starting from a
table holding one unrelated user. -/
theorem c9_idempotent_provisioning_witness :
    Auth.getUserMW (Auth.getUserMW [⟨"u", "s", "Staff", true, none⟩]
        ⟨"A", 2⟩ "r1").2 ⟨"A", 2⟩ "r2" =
      Auth.getUserMW [⟨"u", "s", "Staff", true, none⟩] ⟨"A", 2⟩ "r1" ∧
    Auth.getUserABDM (Auth.getUserABDM [⟨"u", "s", "Staff", true, none⟩]
        "abdm_user" "r3").2 "abdm_user" "r4" =
      Auth.getUserABDM [⟨"u", "s", "Staff", true, none⟩] "abdm_user" "r3" :=
  c9_idempotent_provisioning [⟨"u", "s", "Staff", true, none⟩] ⟨"A", 2⟩ "r1" "r2"
    (by decide) [⟨"u", "s", "Staff", true, none⟩] "abdm_user" "r3" "r4" (by decide)

/-- Claim C10: `current_user` is not read-only — when the stored holder
id no longer resolves to a user row, the query deletes the holder key
(mutating the shared lock state) and reports no holder. -/
theorem c10_current_user_mutates (st : Usage.LockState) (now : Nat)
    (db : Usage.Db) (cur : Nat)
    (h1 : Usage.cacheGetCurrentUser st now = some cur) (h2 : db cur = none) :
    Usage.currentUser st now db = (none, { st with holder := none }) := by
  unfold Usage.currentUser
  rw [h1]
  simp [h2]

/-- Claim C10, witness for `c10_current_user_mutates`: holder id 9 has no
user row; the query clears the holder key. -/
theorem c10_current_user_mutates_witness :
    Usage.currentUser ⟨some ⟨9, 100⟩, [2]⟩ 0 Usage.dbABC =
      (none, { (⟨some ⟨9, 100⟩, [2]⟩ : Usage.LockState) with holder := none }) :=
  c10_current_user_mutates ⟨some ⟨9, 100⟩, [2]⟩ 0 Usage.dbABC 9
    (by decide) (by decide)
